import Mathlib

set_option autoImplicit false

/-!
Verification development for the winit event-translation and dispatch core
(macOS backend, `src/platform_impl/macos/event_loop.rs`) and the X11 monitor
enumeration (`src/platform_impl/linux/x11/monitor.rs`).

Modelling conventions:
* machine floats (`f64` deltas, positions, scroll deltas, pressure) are carried
  as `Int`; the translator only compares them with `0` and passes them through;
* raw pointers used as window identifiers (`get_window_id` casts the `NSWindow`
  pointer to `usize`) become `Nat`;
* a `Weak<Window2>` is an `Option Window2` (the result of `upgrade`), and the
  native `isKeyWindow` query is a snapshot stored in the `Window2` record;
* native side effects that produce no canonical event (`NSApp().sendEvent_`,
  posting the wakeup `NSEvent`, autorelease pools) are not modelled;
* the user callback (an `FnMut`) is a state-passing function
  `σ → Event → σ × ControlFlow` (or `σ → Event → σ` for `poll_events`);
  the model assumes the callback does not re-enter the dispatch machinery.
-/

namespace Winit

/-! ### Canonical event model (from `src/events.rs`, as used by the macOS backend) -/

inductive ElementState
  | Pressed
  | Released
deriving DecidableEq, Repr

structure ModifiersState where
  shift : Bool
  ctrl : Bool
  alt : Bool
  logo : Bool
deriving DecidableEq, Repr

/-- The virtual key codes that `to_virtual_key_code` can produce. -/
inductive VirtualKeyCode
  | A | S | D | F | H | G | Z | X | C | V | B | Q | W | E | R | Y | T
  | Key1 | Key2 | Key3 | Key4 | Key5 | Key6 | Key7 | Key8 | Key9 | Key0
  | Equals | Minus | RBracket | LBracket | O | U | I | P | Return | L | J
  | Apostrophe | K | Semicolon | Backslash | Comma | Slash | N | M | Period
  | Tab | Space | Grave | Back | Escape | LWin | RWin | LShift | LAlt
  | LControl | RShift | RAlt | RControl | F17 | Decimal | Multiply | Add
  | Numlock | VolumeUp | VolumeDown | Divide | NumpadEnter | Subtract
  | F18 | F19 | NumpadEquals
  | Numpad0 | Numpad1 | Numpad2 | Numpad3 | Numpad4 | Numpad5 | Numpad6
  | Numpad7 | Numpad8 | Numpad9
  | F20 | Yen | F5 | F6 | F7 | F3 | F8 | F9 | F11 | F13 | F16 | F14 | F10
  | F12 | F15 | Insert | Home | PageUp | Delete | F4 | End | F2 | PageDown
  | F1 | Left | Right | Down | Up | Caret
deriving DecidableEq, Repr

structure KeyboardInput where
  scancode : Nat
  state : ElementState
  virtual_keycode : Option VirtualKeyCode
  modifiers : ModifiersState
deriving DecidableEq, Repr

inductive MouseScrollDelta
  | LineDelta (x y : Int)
  | PixelDelta (x y : Int)
deriving DecidableEq, Repr

inductive TouchPhase
  | Started
  | Moved
  | Ended
  | Cancelled
deriving DecidableEq, Repr

/-- The macOS backend reports a single constant device (`DEVICE_ID`). -/
structure DeviceId
deriving DecidableEq, Repr

def DEVICE_ID : DeviceId := {}

inductive WindowEvent
  | CursorMoved (device_id : DeviceId) (position : Int × Int) (modifiers : ModifiersState)
  | KeyboardInput (device_id : DeviceId) (input : KeyboardInput)
  | MouseWheel (device_id : DeviceId) (delta : MouseScrollDelta) (phase : TouchPhase)
      (modifiers : ModifiersState)
  | CursorEntered (device_id : DeviceId)
  | CursorLeft (device_id : DeviceId)
  | TouchpadPressure (device_id : DeviceId) (pressure : Int) (stage : Int)
deriving DecidableEq, Repr

inductive DeviceEvent
  | Motion (axis : Nat) (value : Int)
  | MouseMotion (delta : Int × Int)
  | MouseWheel (delta : MouseScrollDelta)
deriving DecidableEq, Repr

inductive Event
  | WindowEvent (window_id : Nat) (event : WindowEvent)
  | DeviceEvent (device_id : DeviceId) (event : DeviceEvent)
  | Awakened
deriving DecidableEq, Repr

/-- `ControlFlow` from `src/events_loop.rs`. -/
inductive ControlFlow
  | Continue
  | Break
deriving DecidableEq, Repr

/-- `to_virtual_key_code` from `src/platform_impl/macos/event_loop.rs`. -/
def to_virtual_key_code (code : Nat) : Option VirtualKeyCode :=
  match code with
  | 0x00 => some .A
  | 0x01 => some .S
  | 0x02 => some .D
  | 0x03 => some .F
  | 0x04 => some .H
  | 0x05 => some .G
  | 0x06 => some .Z
  | 0x07 => some .X
  | 0x08 => some .C
  | 0x09 => some .V
  | 0x0b => some .B
  | 0x0c => some .Q
  | 0x0d => some .W
  | 0x0e => some .E
  | 0x0f => some .R
  | 0x10 => some .Y
  | 0x11 => some .T
  | 0x12 => some .Key1
  | 0x13 => some .Key2
  | 0x14 => some .Key3
  | 0x15 => some .Key4
  | 0x16 => some .Key6
  | 0x17 => some .Key5
  | 0x18 => some .Equals
  | 0x19 => some .Key9
  | 0x1a => some .Key7
  | 0x1b => some .Minus
  | 0x1c => some .Key8
  | 0x1d => some .Key0
  | 0x1e => some .RBracket
  | 0x1f => some .O
  | 0x20 => some .U
  | 0x21 => some .LBracket
  | 0x22 => some .I
  | 0x23 => some .P
  | 0x24 => some .Return
  | 0x25 => some .L
  | 0x26 => some .J
  | 0x27 => some .Apostrophe
  | 0x28 => some .K
  | 0x29 => some .Semicolon
  | 0x2a => some .Backslash
  | 0x2b => some .Comma
  | 0x2c => some .Slash
  | 0x2d => some .N
  | 0x2e => some .M
  | 0x2f => some .Period
  | 0x30 => some .Tab
  | 0x31 => some .Space
  | 0x32 => some .Grave
  | 0x33 => some .Back
  | 0x35 => some .Escape
  | 0x36 => some .LWin
  | 0x37 => some .RWin
  | 0x38 => some .LShift
  | 0x3a => some .LAlt
  | 0x3b => some .LControl
  | 0x3c => some .RShift
  | 0x3d => some .RAlt
  | 0x3e => some .RControl
  | 0x40 => some .F17
  | 0x41 => some .Decimal
  | 0x43 => some .Multiply
  | 0x45 => some .Add
  | 0x47 => some .Numlock
  | 0x49 => some .VolumeUp
  | 0x4a => some .VolumeDown
  | 0x4b => some .Divide
  | 0x4c => some .NumpadEnter
  | 0x4e => some .Subtract
  | 0x4f => some .F18
  | 0x50 => some .F19
  | 0x51 => some .NumpadEquals
  | 0x52 => some .Numpad0
  | 0x53 => some .Numpad1
  | 0x54 => some .Numpad2
  | 0x55 => some .Numpad3
  | 0x56 => some .Numpad4
  | 0x57 => some .Numpad5
  | 0x58 => some .Numpad6
  | 0x59 => some .Numpad7
  | 0x5a => some .F20
  | 0x5b => some .Numpad8
  | 0x5c => some .Numpad9
  | 0x5d => some .Yen
  | 0x60 => some .F5
  | 0x61 => some .F6
  | 0x62 => some .F7
  | 0x63 => some .F3
  | 0x64 => some .F8
  | 0x65 => some .F9
  | 0x67 => some .F11
  | 0x69 => some .F13
  | 0x6a => some .F16
  | 0x6b => some .F14
  | 0x6d => some .F10
  | 0x6f => some .F12
  | 0x71 => some .F15
  | 0x72 => some .Insert
  | 0x73 => some .Home
  | 0x74 => some .PageUp
  | 0x75 => some .Delete
  | 0x76 => some .F4
  | 0x77 => some .End
  | 0x78 => some .F2
  | 0x79 => some .PageDown
  | 0x7a => some .F1
  | 0x7b => some .Left
  | 0x7c => some .Right
  | 0x7d => some .Down
  | 0x7e => some .Up
  | 0xa => some .Caret
  | _ => none

/-! ### Native event model (the fields of `NSEvent` read by the translator) -/

/-- The four modifier bits of `NSEventModifierFlags` that the translator queries. -/
structure NSEventModifierFlags where
  shift : Bool
  control : Bool
  command : Bool
  alternate : Bool
deriving DecidableEq, Repr

/-- The masks passed to `NSEventModifierFlags::contains` by the translator. -/
inductive NSEventModifierMask
  | shiftKeyMask
  | controlKeyMask
  | commandKeyMask
  | alternateKeyMask
deriving DecidableEq, Repr

def NSEventModifierFlags.contains (flags : NSEventModifierFlags) :
    NSEventModifierMask → Bool
  | .shiftKeyMask => flags.shift
  | .controlKeyMask => flags.control
  | .commandKeyMask => flags.command
  | .alternateKeyMask => flags.alternate

/-- The `NSEventPhase` values distinguished by the scroll-wheel arm
(`MayBegin`/`Began` start, `Ended` ends, everything else moves). -/
inductive NSEventPhase
  | mayBegin
  | began
  | ended
  | otherPhase
deriving DecidableEq, Repr

inductive NSEventSubtype
  | applicationActivated
  | otherSubtype
deriving DecidableEq, Repr

/-- The `NSEventType` values matched by `ns_event_to_event`.  `otherType` stands
for every native event type the translator does not handle (including the
undocumented Spotlight event of raw type 21, which is dropped early). -/
inductive NSEventType
  | keyUp
  | keyDown
  | flagsChanged
  | mouseEntered
  | mouseExited
  | mouseMoved
  | leftMouseDragged
  | otherMouseDragged
  | rightMouseDragged
  | scrollWheel
  | eventTypePressure
  | applicationDefined
  | otherType
deriving DecidableEq, Repr

/-- The projection of a native `NSEvent` onto the fields the translator reads.
`windowId` is `get_window_id(ns_event.window())` (the window pointer as an
integer, `0` for a nil window).  Float-valued fields are carried as `Int`. -/
structure NSEvent where
  eventType : NSEventType
  windowId : Nat
  modifierFlags : NSEventModifierFlags
  keyCode : Nat
  deltaX : Int
  deltaY : Int
  locationX : Int
  locationY : Int
  hasPreciseScrollingDeltas : Bool
  scrollingDeltaX : Int
  scrollingDeltaY : Int
  phase : NSEventPhase
  pressure : Int
  stage : Int
  subtype : NSEventSubtype
deriving DecidableEq, Repr

/-! ### Window registry (`Shared::windows : Mutex<Vec<Weak<Window2>>>`) -/

/-- The data of one registered window observed by the translator: its
identifier and a snapshot of the native `isKeyWindow` query. -/
structure Window2 where
  id : Nat
  isKeyWindow : Bool
deriving DecidableEq, Repr

/-- The registry: each entry is the `upgrade` of one `Weak<Window2>`
(`none` when the owner has already dropped the window). -/
abbrev WindowRegistry := List (Option Window2)

/-- `windows.iter().filter_map(Weak::upgrade).find(|window| window_id == window.id())`. -/
def findWindow (windows : WindowRegistry) (window_id : Nat) : Option Window2 :=
  (windows.filterMap id).find? fun window => window_id == window.id

/-- `maybe_key_window`: the first live window whose `isKeyWindow` query answers yes. -/
def findKeyWindow (windows : WindowRegistry) : Option Window2 :=
  (windows.filterMap id).find? fun window => window.isKeyWindow

/-- `maybe_window.or_else(maybe_key_window)` as used by the mouse arms. -/
def windowOrKeyWindow (windows : WindowRegistry) (window_id : Nat) : Option Window2 :=
  match findWindow windows window_id with
  | some w => some w
  | none => findKeyWindow windows

/-- `Shared::find_and_remove_window`: retain the live windows whose id differs,
dropping dead weak references along the way. -/
def find_and_remove_window (windows : WindowRegistry) (id : Nat) : WindowRegistry :=
  windows.filter fun w =>
    match w with
    | some w => w.id != id
    | none => false

/-! ### Event translation (`EventLoop::ns_event_to_event`) -/

/-- The tracked modifier state `EventLoop::modifiers`. -/
structure Modifiers where
  shift_pressed : Bool
  ctrl_pressed : Bool
  win_pressed : Bool
  alt_pressed : Bool
deriving DecidableEq, Repr

/-- `Modifiers::new()`. -/
def Modifiers.new : Modifiers :=
  { shift_pressed := false, ctrl_pressed := false, win_pressed := false, alt_pressed := false }

/-- The field of the tracked state that corresponds to a modifier mask
(shift, ctrl, logo/win, alt). -/
def Modifiers.tracked (mods : Modifiers) : NSEventModifierMask → Bool
  | .shiftKeyMask => mods.shift_pressed
  | .controlKeyMask => mods.ctrl_pressed
  | .commandKeyMask => mods.win_pressed
  | .alternateKeyMask => mods.alt_pressed

/-- `event_mods`: read the current `ModifiersState` off a native event's flags. -/
def event_mods (e : NSEvent) : ModifiersState :=
  { shift := e.modifierFlags.contains .shiftKeyMask
    ctrl := e.modifierFlags.contains .controlKeyMask
    alt := e.modifierFlags.contains .alternateKeyMask
    logo := e.modifierFlags.contains .commandKeyMask }

/-- `modifier_event`: synthesize a `KeyboardInput` window event when the
reported membership of `keymask` differs from the tracked `was_key_pressed`. -/
def modifier_event (e : NSEvent) (keymask : NSEventModifierMask)
    (was_key_pressed : Bool) : Option WindowEvent :=
  if (!was_key_pressed && e.modifierFlags.contains keymask)
      || (was_key_pressed && !(e.modifierFlags.contains keymask)) then
    let state := if was_key_pressed then ElementState.Released else ElementState.Pressed
    let keycode := e.keyCode
    let scancode := keycode
    let virtual_keycode := to_virtual_key_code keycode
    some (WindowEvent.KeyboardInput DEVICE_ID
      { scancode := scancode, state := state, virtual_keycode := virtual_keycode
        modifiers := event_mods e })
  else
    none

/-- The result of translating one native event: the directly returned canonical
event, the canonical events appended to `shared.pending_events` (in push
order), and the updated tracked modifier state. -/
structure TranslationResult where
  returned : Option Event
  queued : List Event
  modifiers : Modifiers
deriving DecidableEq, Repr

/-- The `into_event` closure: wrap a window event with the native event's
window identifier. -/
def into_event (window_id : Nat) (window_event : WindowEvent) : Event :=
  Event.WindowEvent window_id window_event

/-- One of the four sequential blocks of the `NSFlagsChanged` arm: push the
synthesized event (if any) and toggle the tracked bit exactly when an event
was synthesized. -/
def modifier_step (e : NSEvent) (keymask : NSEventModifierMask)
    (was_pressed : Bool) (events : List Event) : List Event × Bool :=
  match modifier_event e keymask was_pressed with
  | some we => (events ++ [into_event e.windowId we], !was_pressed)
  | none => (events, was_pressed)

/-- The `NSFlagsChanged` arm: diff the reported flags against the tracked state
in the fixed order shift, ctrl, logo, alt; return the first synthesized event
(`pop_front`) and queue the rest. -/
def flags_changed_arm (mods : Modifiers) (e : NSEvent) : TranslationResult :=
  let s1 := modifier_step e .shiftKeyMask mods.shift_pressed []
  let s2 := modifier_step e .controlKeyMask mods.ctrl_pressed s1.1
  let s3 := modifier_step e .commandKeyMask mods.win_pressed s2.1
  let s4 := modifier_step e .alternateKeyMask mods.alt_pressed s3.1
  { returned := s4.1.head?
    queued := s4.1.tail
    modifiers :=
      { shift_pressed := s1.2, ctrl_pressed := s2.2, win_pressed := s3.2, alt_pressed := s4.2 } }

/-- The `NSKeyDown` arm: only the `<Cmd-.>` workaround produces an event. -/
def key_down_arm (mods : Modifiers) (e : NSEvent) : TranslationResult :=
  let modifiers := event_mods e
  if modifiers.logo && e.keyCode == 47 then
    { returned := (modifier_event e .commandKeyMask false).map (into_event e.windowId)
      queued := [], modifiers := mods }
  else
    { returned := none, queued := [], modifiers := mods }

/-- The `NSMouseEntered` arm.  The queued `CursorMoved` position is the AppKit
view-coordinate conversion of the event's location; that conversion is native
geometry outside the repository, so the location is carried through as-is. -/
def mouse_entered_arm (windows : WindowRegistry) (mods : Modifiers) (e : NSEvent) :
    TranslationResult :=
  match windowOrKeyWindow windows e.windowId with
  | none => { returned := none, queued := [], modifiers := mods }
  | some window =>
    let window_event :=
      WindowEvent.CursorMoved DEVICE_ID (e.locationX, e.locationY) (event_mods e)
    { returned := some (into_event e.windowId (WindowEvent.CursorEntered DEVICE_ID))
      queued := [Event.WindowEvent window.id window_event]
      modifiers := mods }

/-- The `NSMouseMoved`/`NS*MouseDragged` arm: device-event fan-out with the
first event returned (`pop_front`) and the remainder queued. -/
def mouse_moved_arm (windows : WindowRegistry) (mods : Modifiers) (e : NSEvent) :
    TranslationResult :=
  match windowOrKeyWindow windows e.windowId with
  | none => { returned := none, queued := [], modifiers := mods }
  | some _window =>
    let events : List Event := []
    let delta_x := e.deltaX
    let events :=
      if delta_x ≠ 0 then
        events ++ [Event.DeviceEvent DEVICE_ID (DeviceEvent.Motion 0 delta_x)]
      else events
    let delta_y := e.deltaY
    let events :=
      if delta_y ≠ 0 then
        events ++ [Event.DeviceEvent DEVICE_ID (DeviceEvent.Motion 1 delta_y)]
      else events
    let events :=
      if delta_x ≠ 0 ∨ delta_y ≠ 0 then
        events ++ [Event.DeviceEvent DEVICE_ID (DeviceEvent.MouseMotion (delta_x, delta_y))]
      else events
    { returned := events.head?, queued := events.tail, modifiers := mods }

/-- The `NSScrollWheel` arm: suppressed unless the event's window id resolves;
queues the device-level wheel event and returns the window-level one. -/
def scroll_wheel_arm (windows : WindowRegistry) (mods : Modifiers) (e : NSEvent) :
    TranslationResult :=
  match findWindow windows e.windowId with
  | none => { returned := none, queued := [], modifiers := mods }
  | some _ =>
    let delta :=
      if e.hasPreciseScrollingDeltas then
        MouseScrollDelta.PixelDelta e.scrollingDeltaX e.scrollingDeltaY
      else
        MouseScrollDelta.LineDelta e.scrollingDeltaX e.scrollingDeltaY
    let phase :=
      match e.phase with
      | .mayBegin => TouchPhase.Started
      | .began => TouchPhase.Started
      | .ended => TouchPhase.Ended
      | _ => TouchPhase.Moved
    { returned := some (into_event e.windowId
        (WindowEvent.MouseWheel DEVICE_ID delta phase (event_mods e)))
      queued := [Event.DeviceEvent DEVICE_ID (DeviceEvent.MouseWheel delta)]
      modifiers := mods }

/-- `EventLoop::ns_event_to_event`.  `none` stands for a nil `NSEvent`.  The
`NSApp().sendEvent_` forwarding and the key-up `<Cmd>` re-send are native side
effects with no canonical event; arms are split into named functions above. -/
def ns_event_to_event (windows : WindowRegistry) (mods : Modifiers)
    (ns_event : Option NSEvent) : TranslationResult :=
  match ns_event with
  | none => { returned := none, queued := [], modifiers := mods }
  | some e =>
    match e.eventType with
    | .keyUp => { returned := none, queued := [], modifiers := mods }
    | .keyDown => key_down_arm mods e
    | .flagsChanged => flags_changed_arm mods e
    | .mouseEntered => mouse_entered_arm windows mods e
    | .mouseExited =>
      { returned := some (into_event e.windowId (WindowEvent.CursorLeft DEVICE_ID))
        queued := [], modifiers := mods }
    | .mouseMoved => mouse_moved_arm windows mods e
    | .leftMouseDragged => mouse_moved_arm windows mods e
    | .otherMouseDragged => mouse_moved_arm windows mods e
    | .rightMouseDragged => mouse_moved_arm windows mods e
    | .scrollWheel => scroll_wheel_arm windows mods e
    | .eventTypePressure =>
      { returned := some (into_event e.windowId
          (WindowEvent.TouchpadPressure DEVICE_ID e.pressure e.stage))
        queued := [], modifiers := mods }
    | .applicationDefined =>
      match e.subtype with
      | .applicationActivated =>
        { returned := some Event.Awakened, queued := [], modifiers := mods }
      | .otherSubtype => { returned := none, queued := [], modifiers := mods }
    | .otherType => { returned := none, queued := [], modifiers := mods }

/-! ### Dispatch loop (`EventLoop::poll_events` / `EventLoop::run_forever`)

The user callback is a state-passing function; a session is modelled against a
finite schedule of native events (the events the native source hands out before
the session ends or, in blocking mode, blocks).  Each session records a trace
of primitive operations: `deliver e` for one user-callback invocation and
`fetchNative n` for one `nextEventMatchingMask_…` call, where `n` is the length
of the pending queue at the moment of the fetch. -/

inductive Op
  | deliver (event : Event)
  | fetchNative (pendingCount : Nat)
deriving DecidableEq, Repr

/-- The state of one dispatch session: the shared pending queue, the tracked
modifiers, the callback's own state, the sticky `control_flow` cell of
`run_forever`, and the recorded operation trace. -/
structure LoopState (σ : Type) where
  pending : List Event
  modifiers : Modifiers
  cbState : σ
  controlFlow : ControlFlow
  ops : List Op
deriving DecidableEq, Repr

def deliveredEvents (ops : List Op) : List Event :=
  ops.filterMap fun o =>
    match o with
    | .deliver e => some e
    | .fetchNative _ => none

def fetchCounts (ops : List Op) : List Nat :=
  ops.filterMap fun o =>
    match o with
    | .deliver _ => none
    | .fetchNative n => some n

/-- Deliver one event through the wrapped user callback.  The wrapper of
`run_forever` sets the sticky `control_flow` cell to `Break` when the user's
callback answers `Break` and leaves it unchanged otherwise.  (The callback is
pure, so projecting its result twice equals calling it once.) -/
def callWithEvent {σ : Type} (cb : σ → Event → σ × ControlFlow)
    (st : LoopState σ) (e : Event) : LoopState σ :=
  { st with
    cbState := (cb st.cbState e).1
    controlFlow :=
      match (cb st.cbState e).2 with
      | .Break => ControlFlow.Break
      | .Continue => st.controlFlow
    ops := st.ops ++ [Op.deliver e] }

def drainAux {σ : Type} (cb : σ → Event → σ × ControlFlow) :
    List Event → LoopState σ → LoopState σ
  | [], st => st
  | e :: rest, st => drainAux cb rest (callWithEvent cb st e)

/-- `Shared::call_user_callback_with_pending_events`: pop events off the front
of the pending queue and deliver each one until the queue is empty.  No
control-flow check happens between the deliveries. -/
def call_user_callback_with_pending_events {σ : Type}
    (cb : σ → Event → σ × ControlFlow) (st : LoopState σ) : LoopState σ :=
  drainAux cb st.pending { st with pending := [] }

/-- Record one `nextEventMatchingMask_untilDate_inMode_dequeue_` call in the
trace, together with the length the pending queue has at that moment. -/
def fetchOp {σ : Type} (st : LoopState σ) : LoopState σ :=
  { st with ops := st.ops ++ [Op.fetchNative st.pending.length] }

/-- Fold a translation result into the session state: adopt the updated
tracked modifiers and append the translator's queued events to the back of
the shared pending queue (`VecDeque::extend`). -/
def applyTranslation {σ : Type} (tr : TranslationResult) (st : LoopState σ) : LoopState σ :=
  { st with modifiers := tr.modifiers, pending := st.pending ++ tr.queued }

/-- One iteration of the `run_forever` loop against one native event: drain
the pending queue, stop (`Sum.inl`) if the sticky cell says `Break`,
otherwise fetch and translate the native event, deliver the returned event
(if any), and stop or continue (`Sum.inr`) according to the re-checked cell. -/
def run_forever_step {σ : Type} (cb : σ → Event → σ × ControlFlow)
    (windows : WindowRegistry) (ns : Option NSEvent) (st : LoopState σ) :
    LoopState σ ⊕ LoopState σ :=
  let st1 := call_user_callback_with_pending_events cb st
  if st1.controlFlow = ControlFlow.Break then Sum.inl st1
  else
    let st2 := fetchOp st1
    let tr := ns_event_to_event windows st2.modifiers ns
    let st3 := applyTranslation tr st2
    match tr.returned with
    | some e =>
      let st4 := callWithEvent cb st3 e
      if st4.controlFlow = ControlFlow.Break then Sum.inl st4 else Sum.inr st4
    | none => Sum.inr st3

/-- The body of `run_forever` after the main-thread check, iterated against a
finite schedule of native events.  An exhausted schedule models the point
where the session blocks on the native source: the loop drains the pending
queue once more and then waits. -/
def run_forever_loop {σ : Type} (cb : σ → Event → σ × ControlFlow)
    (windows : WindowRegistry) :
    List (Option NSEvent) → LoopState σ → LoopState σ
  | [], st => call_user_callback_with_pending_events cb st
  | ns :: rest, st =>
    match run_forever_step cb windows ns st with
    | Sum.inl stFinal => stFinal
    | Sum.inr stNext => run_forever_loop cb windows rest stNext

/-- A `poll_events` callback returns no control-flow signal. -/
def pollCb {σ : Type} (cb : σ → Event → σ) : σ → Event → σ × ControlFlow :=
  fun s e => (cb s e, ControlFlow.Continue)

/-- One iteration of the `poll_events` loop against one available native
event: drain, poll (non-blocking), translate; when translation returns no
canonical event the loop breaks (`Sum.inl`), otherwise the returned event is
delivered and polling continues (`Sum.inr`). -/
def poll_events_step {σ : Type} (cb : σ → Event → σ) (windows : WindowRegistry)
    (ns : NSEvent) (st : LoopState σ) : LoopState σ ⊕ LoopState σ :=
  let st1 := call_user_callback_with_pending_events (pollCb cb) st
  let st2 := fetchOp st1
  let tr := ns_event_to_event windows st2.modifiers (some ns)
  let st3 := applyTranslation tr st2
  match tr.returned with
  | some e => Sum.inr (callWithEvent (pollCb cb) st3 e)
  | none => Sum.inl st3

/-- The body of `poll_events` after the main-thread check.  The exhausted
schedule models the poll returning nil, which translates to no event and
breaks the loop. -/
def poll_events_loop {σ : Type} (cb : σ → Event → σ) (windows : WindowRegistry) :
    List NSEvent → LoopState σ → LoopState σ
  | [], st => fetchOp (call_user_callback_with_pending_events (pollCb cb) st)
  | ns :: rest, st =>
    match poll_events_step cb windows ns st with
    | Sum.inl stFinal => stFinal
    | Sum.inr stNext => poll_events_loop cb windows rest stNext

/-- The state at the start of a dispatch session: the shared pending queue may
already hold events (queued by native callbacks outside any session), the
sticky cell starts at `Continue`, and the trace is empty. -/
def initState {σ : Type} (pending : List Event) (mods : Modifiers) (s0 : σ) :
    LoopState σ :=
  { pending := pending, modifiers := mods, cbState := s0
    controlFlow := ControlFlow.Continue, ops := [] }

/-- Outcome of one dispatch entry-point call: `panicked` models the
`panic!("Events can only be polled from the main thread on macOS")` abort, which
happens before the callback is stored and before anything is delivered. -/
inductive DispatchOutcome (σ : Type)
  | panicked
  | completed (st : LoopState σ)

/-- `EventLoop::run_forever`: main-thread check, then the blocking loop. -/
def run_forever {σ : Type} (isMainThread : Bool) (cb : σ → Event → σ × ControlFlow)
    (s0 : σ) (windows : WindowRegistry) (mods : Modifiers)
    (pending : List Event) (natives : List (Option NSEvent)) : DispatchOutcome σ :=
  if isMainThread then
    DispatchOutcome.completed (run_forever_loop cb windows natives (initState pending mods s0))
  else
    DispatchOutcome.panicked

/-- `EventLoop::poll_events`: main-thread check, then the polling loop. -/
def poll_events {σ : Type} (isMainThread : Bool) (cb : σ → Event → σ)
    (s0 : σ) (windows : WindowRegistry) (mods : Modifiers)
    (pending : List Event) (natives : List NSEvent) : DispatchOutcome σ :=
  if isMainThread then
    DispatchOutcome.completed (poll_events_loop cb windows natives (initState pending mods s0))
  else
    DispatchOutcome.panicked

/-! ### Wakeup proxy (`Proxy::wakeup` and the `EventsLoopProxy` wrapper) -/

/-- `EventsLoopClosed` from `src/events_loop.rs`. -/
structure EventsLoopClosed
deriving DecidableEq, Repr

/-- The macOS `Proxy` is a field-less struct: it holds no reference to the
`EventLoop` it was created from. -/
structure Proxy
deriving DecidableEq, Repr

/-- `Proxy::wakeup`: posts the synthetic `NSApplicationActivatedEventType`
event into the native queue (a native side effect) and returns `Ok(())`
unconditionally. -/
def Proxy.wakeup (_p : Proxy) : Except EventsLoopClosed Unit :=
  Except.ok ()

/-- The cross-platform `EventsLoopProxy` wrapper, which forwards `wakeup`. -/
structure EventsLoopProxy where
  events_loop_proxy : Proxy

def EventsLoopProxy.wakeup (p : EventsLoopProxy) : Except EventsLoopClosed Unit :=
  p.events_loop_proxy.wakeup

/-! ### X11 monitor enumeration (`src/platform_impl/linux/x11/monitor.rs`)

The XRandR enumeration is native: the model's input is the list of native
monitor records (XRandR ≥ 1.5 monitors, or active CRTCs below 1.5), each with
its reported primary bit and whether `get_output_info` succeeds for it
(`MonitorHandle::from_repr` returns `None` exactly when that query fails). -/

/-- The fields of `MonitorHandle` the verified properties inspect.  The real
struct also carries name, dimensions, position, scale factor, rect and video
modes; none of those is read below, so they are not modelled. -/
structure MonitorHandle where
  id : Nat
  primary : Bool
deriving DecidableEq, Repr

/-- One native monitor record as seen by `query_monitor_list`. -/
structure MonitorRecord where
  reportedPrimary : Bool
  outputInfoOk : Bool
deriving DecidableEq, Repr

/-- `MonitorHandle::from_repr`: `None` when `get_output_info` fails. -/
def MonitorHandle.from_repr (id : Nat) (r : MonitorRecord) (primary : Bool) :
    Option MonitorHandle :=
  if r.outputInfoOk then some { id := id, primary := primary } else none

/-- The enumeration loop of `query_monitor_list`: accumulate the constructed
handles and the `has_primary |= is_primary` flag (the flag is set even when
handle construction fails). -/
def query_scan : List MonitorRecord → List MonitorHandle → Bool → Nat →
    List MonitorHandle × Bool
  | [], available, has_primary, _ => (available, has_primary)
  | r :: rest, available, has_primary, idx =>
    let is_primary := r.reportedPrimary
    let has_primary := has_primary || is_primary
    match MonitorHandle.from_repr idx r is_primary with
    | some m => query_scan rest (available ++ [m]) has_primary (idx + 1)
    | none => query_scan rest available has_primary (idx + 1)

/-- `XConnection::query_monitor_list`: enumerate, then, if no monitor was
reported primary, mark the first constructed handle as primary. -/
def query_monitor_list (input : List MonitorRecord) : List MonitorHandle :=
  if !(query_scan input [] false 0).2 then
    match (query_scan input [] false 0).1 with
    | [] => []
    | first :: rest => { first with primary := true } :: rest
  else
    (query_scan input [] false 0).1

/-- `XConnection::primary_monitor` searches the (cached) monitor list for the
primary flag; `none` models the `.expect(...)` panic when no handle has it.
`available_monitors` caches and returns exactly `query_monitor_list`'s result,
so the search runs over that list. -/
def primary_monitor (monitors : List MonitorHandle) : Option MonitorHandle :=
  monitors.find? fun monitor => monitor.primary

/-! ### Derived notions used by the properties -/

/-- How many `Pressed` minus `Released` events the `NSFlagsChanged` arm
synthesizes for modifier `m` at one step: the arm calls
`modifier_event e m (mods.tracked m)` for that modifier, so the count is read
off that call's result. -/
def modifierNet (mods : Modifiers) (m : NSEventModifierMask) (e : NSEvent) : Int :=
  match modifier_event e m (mods.tracked m) with
  | some (WindowEvent.KeyboardInput _ input) =>
    match input.state with
    | .Pressed => 1
    | .Released => -1
  | _ => 0

/-- The tracked modifier state after the translator has processed a sequence
of `NSFlagsChanged` snapshots. -/
def flagsSeqMods (mods : Modifiers) : List NSEvent → Modifiers
  | [] => mods
  | e :: rest => flagsSeqMods (flags_changed_arm mods e).modifiers rest

/-- The running total of `Pressed` minus `Released` events synthesized for
modifier `m` across a sequence of `NSFlagsChanged` snapshots. -/
def flagsSeqNet (m : NSEventModifierMask) (mods : Modifiers) : List NSEvent → Int
  | [] => 0
  | e :: rest => modifierNet mods m e + flagsSeqNet m (flags_changed_arm mods e).modifiers rest

/-- Spec-side description for the ordering property: the synthesized modifier
events of one `NSFlagsChanged` snapshot, listed in the fixed key order
shift, ctrl, logo, alt. -/
def orderedModifierEvents (mods : Modifiers) (e : NSEvent) : List Event :=
  [NSEventModifierMask.shiftKeyMask, NSEventModifierMask.controlKeyMask,
      NSEventModifierMask.commandKeyMask, NSEventModifierMask.alternateKeyMask].filterMap
    fun m => (modifier_event e m (mods.tracked m)).map (into_event e.windowId)

/-! ### Concrete fixtures for counterexamples and witnesses -/

/-- A native event with every field neutral; fixtures override what they need. -/
def blankNSEvent : NSEvent :=
  { eventType := .otherType, windowId := 0
    modifierFlags := { shift := false, control := false, command := false, alternate := false }
    keyCode := 0, deltaX := 0, deltaY := 0, locationX := 0, locationY := 0
    hasPreciseScrollingDeltas := false, scrollingDeltaX := 0, scrollingDeltaY := 0
    phase := .otherPhase, pressure := 0, stage := 0, subtype := .otherSubtype }

/-- An `NSFlagsChanged` snapshot reporting shift and ctrl newly held, arriving
for window 9 with the left-shift key code. -/
def flagsShiftCtrlEvent : NSEvent :=
  { blankNSEvent with
    eventType := .flagsChanged
    windowId := 9
    keyCode := 56
    modifierFlags := { shift := true, control := true, command := false, alternate := false } }

/-- An `NSMouseExited` native event for a window id (7) that is not registered. -/
def mouseExitedEvent7 : NSEvent :=
  { blankNSEvent with eventType := .mouseExited, windowId := 7 }

/-- An `NSMouseMoved` native event on window 5 with non-zero deltas on both axes. -/
def mouseMovedEvent5 : NSEvent :=
  { blankNSEvent with eventType := .mouseMoved, windowId := 5, deltaX := 3, deltaY := 4 }

/-- An `NSScrollWheel` native event on window 5. -/
def scrollWheelEvent5 : NSEvent :=
  { blankNSEvent with eventType := .scrollWheel, windowId := 5 }

/-- A user callback that answers `Break` on every invocation. -/
def cbAlwaysBreak : Unit → Event → Unit × ControlFlow :=
  fun _ _ => ((), ControlFlow.Break)

def eventA : Event := Event.WindowEvent 1 (WindowEvent.CursorLeft DEVICE_ID)

def eventB : Event := Event.WindowEvent 2 (WindowEvent.CursorLeft DEVICE_ID)

/-! ### Helper lemmas: traces of the dispatch primitives -/

def allFetchZero (ops : List Op) : Bool :=
  (fetchCounts ops).all fun n => n == 0

theorem callWithEvent_ops {σ : Type} (cb : σ → Event → σ × ControlFlow)
    (st : LoopState σ) (e : Event) :
    (callWithEvent cb st e).ops = st.ops ++ [Op.deliver e] := rfl

theorem callWithEvent_pending {σ : Type} (cb : σ → Event → σ × ControlFlow)
    (st : LoopState σ) (e : Event) :
    (callWithEvent cb st e).pending = st.pending := rfl

theorem drainAux_ops {σ : Type} (cb : σ → Event → σ × ControlFlow) :
    ∀ (es : List Event) (st : LoopState σ),
      (drainAux cb es st).ops = st.ops ++ es.map Op.deliver := by
  intro es
  induction es with
  | nil => intro st; simp [drainAux]
  | cons e rest ih =>
    intro st
    rw [drainAux, ih, callWithEvent_ops]
    simp

theorem drainAux_pending {σ : Type} (cb : σ → Event → σ × ControlFlow) :
    ∀ (es : List Event) (st : LoopState σ), (drainAux cb es st).pending = st.pending := by
  intro es
  induction es with
  | nil => intro st; rfl
  | cons e rest ih => intro st; rw [drainAux, ih, callWithEvent_pending]

theorem drain_ops {σ : Type} (cb : σ → Event → σ × ControlFlow) (st : LoopState σ) :
    (call_user_callback_with_pending_events cb st).ops
      = st.ops ++ st.pending.map Op.deliver := by
  rw [call_user_callback_with_pending_events, drainAux_ops]

theorem drain_pending {σ : Type} (cb : σ → Event → σ × ControlFlow) (st : LoopState σ) :
    (call_user_callback_with_pending_events cb st).pending = [] := by
  rw [call_user_callback_with_pending_events, drainAux_pending]

theorem fetchCounts_append (a b : List Op) :
    fetchCounts (a ++ b) = fetchCounts a ++ fetchCounts b := by
  simp [fetchCounts, List.filterMap_append]

theorem fetchCounts_deliver (es : List Event) : fetchCounts (es.map Op.deliver) = [] := by
  induction es with
  | nil => rfl
  | cons e rest ih => simp [fetchCounts, List.filterMap, ih]

theorem deliveredEvents_append (a b : List Op) :
    deliveredEvents (a ++ b) = deliveredEvents a ++ deliveredEvents b := by
  simp [deliveredEvents, List.filterMap_append]

theorem deliveredEvents_deliver (es : List Event) :
    deliveredEvents (es.map Op.deliver) = es := by
  induction es with
  | nil => rfl
  | cons e rest ih => simpa [deliveredEvents, List.filterMap] using ih

theorem allFetchZero_append (a b : List Op) :
    allFetchZero (a ++ b) = (allFetchZero a && allFetchZero b) := by
  simp [allFetchZero, fetchCounts_append, List.all_append]

theorem allFetchZero_deliver (es : List Event) :
    allFetchZero (es.map Op.deliver) = true := by
  simp [allFetchZero, fetchCounts_deliver]

/-- Collapse either outcome of one loop iteration to its state. -/
def stepOut {σ : Type} : LoopState σ ⊕ LoopState σ → LoopState σ
  | Sum.inl s => s
  | Sum.inr s => s

theorem run_forever_step_ops {σ : Type} (cb : σ → Event → σ × ControlFlow)
    (windows : WindowRegistry) (ns : Option NSEvent) (st : LoopState σ) :
    ∃ t, (stepOut (run_forever_step cb windows ns st)).ops
        = st.ops ++ st.pending.map Op.deliver ++ t ∧ allFetchZero t = true := by
  simp only [run_forever_step]
  split
  · exact ⟨[], by simp [stepOut, drain_ops], rfl⟩
  · split
    · rename_i e heq
      split
      · refine ⟨[Op.fetchNative 0, Op.deliver e], ?_, by
          simp [allFetchZero, fetchCounts, List.filterMap]⟩
        simp [stepOut, callWithEvent, applyTranslation, fetchOp, drain_ops, drain_pending]
      · refine ⟨[Op.fetchNative 0, Op.deliver e], ?_, by
          simp [allFetchZero, fetchCounts, List.filterMap]⟩
        simp [stepOut, callWithEvent, applyTranslation, fetchOp, drain_ops, drain_pending]
    · refine ⟨[Op.fetchNative 0], ?_, by simp [allFetchZero, fetchCounts, List.filterMap]⟩
      simp [stepOut, applyTranslation, fetchOp, drain_ops, drain_pending]

theorem run_forever_loop_ops {σ : Type} (cb : σ → Event → σ × ControlFlow)
    (windows : WindowRegistry) :
    ∀ (natives : List (Option NSEvent)) (st : LoopState σ),
      ∃ t, (run_forever_loop cb windows natives st).ops
          = st.ops ++ st.pending.map Op.deliver ++ t ∧ allFetchZero t = true := by
  intro natives
  induction natives with
  | nil =>
    intro st
    exact ⟨[], by simp [run_forever_loop, drain_ops], rfl⟩
  | cons ns rest ih =>
    intro st
    rw [run_forever_loop]
    obtain ⟨t, hops, hz⟩ := run_forever_step_ops cb windows ns st
    cases hstep : run_forever_step cb windows ns st with
    | inl s =>
      rw [hstep] at hops
      simp only [stepOut] at hops
      exact ⟨t, hops, hz⟩
    | inr s =>
      rw [hstep] at hops
      simp only [stepOut] at hops
      obtain ⟨t2, hops2, hz2⟩ := ih s
      refine ⟨t ++ (s.pending.map Op.deliver ++ t2), ?_, ?_⟩
      · rw [hops2, hops]
        simp [List.append_assoc]
      · simp [allFetchZero_append, hz, hz2, allFetchZero_deliver]

theorem poll_events_step_ops {σ : Type} (cb : σ → Event → σ)
    (windows : WindowRegistry) (ns : NSEvent) (st : LoopState σ) :
    ∃ t, (stepOut (poll_events_step cb windows ns st)).ops
        = st.ops ++ st.pending.map Op.deliver ++ t ∧ allFetchZero t = true := by
  simp only [poll_events_step]
  split
  · rename_i e heq
    refine ⟨[Op.fetchNative 0, Op.deliver e], ?_, by
      simp [allFetchZero, fetchCounts, List.filterMap]⟩
    simp [stepOut, callWithEvent, applyTranslation, fetchOp, drain_ops, drain_pending]
  · refine ⟨[Op.fetchNative 0], ?_, by simp [allFetchZero, fetchCounts, List.filterMap]⟩
    simp [stepOut, applyTranslation, fetchOp, drain_ops, drain_pending]

theorem poll_events_loop_ops {σ : Type} (cb : σ → Event → σ)
    (windows : WindowRegistry) :
    ∀ (natives : List NSEvent) (st : LoopState σ),
      ∃ t, (poll_events_loop cb windows natives st).ops
          = st.ops ++ st.pending.map Op.deliver ++ t ∧ allFetchZero t = true := by
  intro natives
  induction natives with
  | nil =>
    intro st
    refine ⟨[Op.fetchNative 0], ?_, by simp [allFetchZero, fetchCounts, List.filterMap]⟩
    simp [poll_events_loop, fetchOp, drain_ops, drain_pending]
  | cons ns rest ih =>
    intro st
    rw [poll_events_loop]
    obtain ⟨t, hops, hz⟩ := poll_events_step_ops cb windows ns st
    cases hstep : poll_events_step cb windows ns st with
    | inl s =>
      rw [hstep] at hops
      simp only [stepOut] at hops
      exact ⟨t, hops, hz⟩
    | inr s =>
      rw [hstep] at hops
      simp only [stepOut] at hops
      obtain ⟨t2, hops2, hz2⟩ := ih s
      refine ⟨t ++ (s.pending.map Op.deliver ++ t2), ?_, ?_⟩
      · rw [hops2, hops]
        simp [List.append_assoc]
      · simp [allFetchZero_append, hz, hz2, allFetchZero_deliver]

/-- When the sticky cell already says `Break` after the initial drain, the
blocking loop returns that drained state without fetching anything. -/
theorem run_forever_loop_break_after_drain {σ : Type} (cb : σ → Event → σ × ControlFlow)
    (windows : WindowRegistry) (natives : List (Option NSEvent)) (st : LoopState σ)
    (h : (call_user_callback_with_pending_events cb st).controlFlow = ControlFlow.Break) :
    run_forever_loop cb windows natives st = call_user_callback_with_pending_events cb st := by
  cases natives with
  | nil => rfl
  | cons ns rest =>
    rw [run_forever_loop]
    have hstep : run_forever_step cb windows ns st
        = Sum.inl (call_user_callback_with_pending_events cb st) := by
      simp [run_forever_step, h]
    rw [hstep]

/-! ### Helper lemmas: modifier-flags diffing -/

/-- Each block of the `NSFlagsChanged` arm leaves the tracked bit equal to the
reported membership: it toggles exactly when the two disagreed. -/
theorem modifier_step_snd (e : NSEvent) (keymask : NSEventModifierMask)
    (was_pressed : Bool) (events : List Event) :
    (modifier_step e keymask was_pressed events).2 = e.modifierFlags.contains keymask := by
  cases hc : e.modifierFlags.contains keymask <;> cases was_pressed <;>
    simp [modifier_step, modifier_event, hc]

/-- Each block appends the event that `modifier_event` synthesizes (if any). -/
theorem modifier_step_fst (e : NSEvent) (keymask : NSEventModifierMask)
    (was_pressed : Bool) (events : List Event) :
    (modifier_step e keymask was_pressed events).1
      = events ++ ((modifier_event e keymask was_pressed).map (into_event e.windowId)).toList := by
  cases h : modifier_event e keymask was_pressed <;> simp [modifier_step, h]

/-- After one `NSFlagsChanged` snapshot, the tracked state of every modifier
equals its reported membership. -/
theorem flags_changed_arm_tracked (mods : Modifiers) (e : NSEvent)
    (m : NSEventModifierMask) :
    ((flags_changed_arm mods e).modifiers).tracked m = e.modifierFlags.contains m := by
  cases m <;> simp [flags_changed_arm, Modifiers.tracked, modifier_step_snd]

/-- The event list assembled by the `NSFlagsChanged` arm is exactly the
spec-side ordered list. -/
theorem flags_changed_arm_events (mods : Modifiers) (e : NSEvent) :
    (modifier_step e .alternateKeyMask mods.alt_pressed
      (modifier_step e .commandKeyMask mods.win_pressed
        (modifier_step e .controlKeyMask mods.ctrl_pressed
          (modifier_step e .shiftKeyMask mods.shift_pressed []).1).1).1).1
      = orderedModifierEvents mods e := by
  simp only [modifier_step_fst]
  simp [orderedModifierEvents, Modifiers.tracked, List.filterMap]
  cases modifier_event e .shiftKeyMask mods.shift_pressed <;>
    cases modifier_event e .controlKeyMask mods.ctrl_pressed <;>
    cases modifier_event e .commandKeyMask mods.win_pressed <;>
    cases modifier_event e .alternateKeyMask mods.alt_pressed <;>
    simp

/-- The per-step net count for one modifier, read off `modifier_event`. -/
theorem modifierNet_value (mods : Modifiers) (m : NSEventModifierMask) (e : NSEvent) :
    modifierNet mods m e
      = (if e.modifierFlags.contains m then (1 : Int) else 0)
        - (if mods.tracked m then (1 : Int) else 0) := by
  cases hc : e.modifierFlags.contains m <;> cases ht : mods.tracked m <;>
    simp [modifierNet, modifier_event, hc, ht]

theorem flagsSeqMods_append (pre : List NSEvent) (e : NSEvent) :
    ∀ (mods : Modifiers),
      flagsSeqMods mods (pre ++ [e])
        = (flags_changed_arm (flagsSeqMods mods pre) e).modifiers := by
  induction pre with
  | nil => intro mods; rfl
  | cons f rest ih => intro mods; rw [List.cons_append, flagsSeqMods, flagsSeqMods, ih]

/-- The net count telescopes: over any snapshot sequence it equals the change
of the tracked bit, which the sync lemma ties to the reported flags. -/
theorem flagsSeqNet_eq (m : NSEventModifierMask) :
    ∀ (ns : List NSEvent) (mods : Modifiers),
      flagsSeqNet m mods ns
        = (if (flagsSeqMods mods ns).tracked m then (1 : Int) else 0)
          - (if mods.tracked m then (1 : Int) else 0) := by
  intro ns
  induction ns with
  | nil => intro mods; simp [flagsSeqNet, flagsSeqMods]
  | cons e rest ih =>
    intro mods
    rw [flagsSeqNet, flagsSeqMods, modifierNet_value, ih, flags_changed_arm_tracked]
    ring

/-- The `NSFlagsChanged` arm returns the head of the ordered synthesized-event
list and queues its tail. -/
theorem flags_changed_arm_spec (mods : Modifiers) (e : NSEvent) :
    (flags_changed_arm mods e).returned = (orderedModifierEvents mods e).head?
    ∧ (flags_changed_arm mods e).queued = (orderedModifierEvents mods e).tail := by
  have hr : (flags_changed_arm mods e).returned
      = (modifier_step e .alternateKeyMask mods.alt_pressed
          (modifier_step e .commandKeyMask mods.win_pressed
            (modifier_step e .controlKeyMask mods.ctrl_pressed
              (modifier_step e .shiftKeyMask mods.shift_pressed []).1).1).1).1.head? := rfl
  have hq : (flags_changed_arm mods e).queued
      = (modifier_step e .alternateKeyMask mods.alt_pressed
          (modifier_step e .commandKeyMask mods.win_pressed
            (modifier_step e .controlKeyMask mods.ctrl_pressed
              (modifier_step e .shiftKeyMask mods.shift_pressed []).1).1).1).1.tail := rfl
  rw [hr, hq, flags_changed_arm_events]
  exact ⟨rfl, rfl⟩

/-- `has_primary` after the enumeration loop is the disjunction of the
reported primary bits (set even for records whose handle construction fails). -/
theorem query_scan_snd :
    ∀ (input : List MonitorRecord) (av : List MonitorHandle) (hp : Bool) (idx : Nat),
      (query_scan input av hp idx).2 = (hp || input.any fun r => r.reportedPrimary) := by
  intro input
  induction input with
  | nil => intro av hp idx; simp [query_scan]
  | cons r rest ih =>
    intro av hp idx
    simp only [query_scan]
    by_cases ho : r.outputInfoOk <;>
      simp [MonitorHandle.from_repr, ho, ih, Bool.or_assoc, List.any_cons]

theorem allFetchZero_nil : allFetchZero [] = true := rfl

/-! ### The claims -/

/-- C1 (counterexample): with a callback that answers `Break` on every
invocation and two events already in the pending queue, `run_forever` still
delivers the second event after the first invocation returned `Break` (the
drain has no control-flow check between deliveries); and when `Break`
interrupts a flags-changed fan-out after its first event, the remaining
synthesized event stays in the shared pending queue on return — it is
retained, not discarded. -/
theorem C1_counterexample :
    (cbAlwaysBreak () eventA).2 = ControlFlow.Break
    ∧ deliveredEvents
        (run_forever_loop cbAlwaysBreak [] [] (initState [eventA, eventB] Modifiers.new ())).ops
      = [eventA, eventB]
    ∧ (run_forever_loop cbAlwaysBreak [] [some flagsShiftCtrlEvent]
          (initState [] Modifiers.new ())).pending
      = [Event.WindowEvent 9 (WindowEvent.KeyboardInput DEVICE_ID
          { scancode := 56, state := ElementState.Pressed
            virtual_keycode := some VirtualKeyCode.LShift
            modifiers := { shift := true, ctrl := true, alt := false, logo := false } })]
    ∧ deliveredEvents
        (run_forever_loop cbAlwaysBreak [] [some flagsShiftCtrlEvent]
          (initState [] Modifiers.new ())).ops
      = [Event.WindowEvent 9 (WindowEvent.KeyboardInput DEVICE_ID
          { scancode := 56, state := ElementState.Pressed
            virtual_keycode := some VirtualKeyCode.LShift
            modifiers := { shift := true, ctrl := true, alt := false, logo := false } })] := by
  decide

/-- C1 (amended): in blocking mode the `Break`/`Continue` cell is consulted
only at the two checkpoints — after fully draining the pending queue and
after delivering a freshly translated native event.  All events in the queue
at the start of a drain are delivered, in order, even if an invocation
mid-drain returns `Break`; and once `Break` has been observed at the drain
checkpoint, the session ends at once without fetching another native event,
leaving any undelivered queued events in the shared queue for a later
session rather than discarding them. -/
theorem C1_break_checkpoints {σ : Type} (cb : σ → Event → σ × ControlFlow) (s0 : σ)
    (windows : WindowRegistry) (mods : Modifiers) (q : List Event)
    (natives : List (Option NSEvent)) (st : LoopState σ) :
    (deliveredEvents (run_forever_loop cb windows natives (initState q mods s0)).ops).take q.length
      = q
    ∧ ((call_user_callback_with_pending_events cb st).controlFlow = ControlFlow.Break →
        run_forever_loop cb windows natives st = call_user_callback_with_pending_events cb st) := by
  constructor
  · obtain ⟨t, hops, _⟩ := run_forever_loop_ops cb windows natives (initState q mods s0)
    rw [hops]
    simp only [initState, List.nil_append, deliveredEvents_append, deliveredEvents_deliver]
    exact List.take_left q _
  · exact run_forever_loop_break_after_drain cb windows natives st

/-- C1 (witness): concrete instance of the amended theorem — one queued event
delivered in order, and with a `Break`-answering callback the session ends at
the drained state. -/
theorem C1_break_checkpoints_witness :
    (deliveredEvents (run_forever_loop cbAlwaysBreak [] [some flagsShiftCtrlEvent]
        (initState [eventA] Modifiers.new ())).ops).take 1 = [eventA]
    ∧ run_forever_loop cbAlwaysBreak [] [some flagsShiftCtrlEvent]
        (initState [eventA] Modifiers.new ())
      = call_user_callback_with_pending_events cbAlwaysBreak
          (initState [eventA] Modifiers.new ()) := by
  have h := C1_break_checkpoints cbAlwaysBreak () [] Modifiers.new [eventA]
    [some flagsShiftCtrlEvent] (initState [eventA] Modifiers.new ())
  exact ⟨h.1, h.2 (by decide)⟩

/-- C2: over any sequence of `NSFlagsChanged` snapshots processed from the
all-released tracked state, the `Pressed`-minus-`Released` count of the
events synthesized for each modifier equals the net change of that
modifier's membership between the initial tracked state (released) and the
final reported flags. -/
theorem C2_modifier_net_count (m : NSEventModifierMask) (pre : List NSEvent) (e : NSEvent) :
    flagsSeqNet m Modifiers.new (pre ++ [e])
      = (if e.modifierFlags.contains m then (1 : Int) else 0) := by
  rw [flagsSeqNet_eq, flagsSeqMods_append, flags_changed_arm_tracked]
  cases m <;> simp [Modifiers.new, Modifiers.tracked]

/-- C3: an `NSFlagsChanged` native event synthesizes its keyboard events in
the fixed key order shift, ctrl, logo, alt; translation returns exactly the
first of them and appends the rest, in that order, to the pending queue. -/
theorem C3_flags_changed_order (windows : WindowRegistry) (mods : Modifiers) (e : NSEvent)
    (h : e.eventType = NSEventType.flagsChanged) :
    (ns_event_to_event windows mods (some e)).returned = (orderedModifierEvents mods e).head?
    ∧ (ns_event_to_event windows mods (some e)).queued = (orderedModifierEvents mods e).tail := by
  have harm : ns_event_to_event windows mods (some e) = flags_changed_arm mods e := by
    simp [ns_event_to_event, h]
  rw [harm]
  exact flags_changed_arm_spec mods e

/-- C3 (witness): the ordering property at a concrete snapshot that presses
shift and ctrl at once. -/
theorem C3_flags_changed_order_witness :
    (ns_event_to_event [] Modifiers.new (some flagsShiftCtrlEvent)).returned
      = (orderedModifierEvents Modifiers.new flagsShiftCtrlEvent).head?
    ∧ (ns_event_to_event [] Modifiers.new (some flagsShiftCtrlEvent)).queued
      = (orderedModifierEvents Modifiers.new flagsShiftCtrlEvent).tail :=
  C3_flags_changed_order [] Modifiers.new flagsShiftCtrlEvent rfl

/-- C4 (counterexample): an `NSMouseExited` native event whose window id (7)
is not in the registry still translates to a `CursorLeft` window event
carrying that unresolvable id — translation is not suppressed. -/
theorem C4_counterexample :
    (ns_event_to_event [] Modifiers.new (some mouseExitedEvent7)).returned
      = some (Event.WindowEvent 7 (WindowEvent.CursorLeft DEVICE_ID))
    ∧ findWindow [] 7 = none := by
  decide

/-- C4 (amended): the registry check is enforced only by the mouse-move/drag,
mouse-entered and scroll-wheel arms: a scroll wheel whose id does not resolve
yields nothing, a scroll-wheel window event only ever carries a resolvable
id, and mouse-move/drag/enter events yield nothing when neither the event's
window nor any key window resolves.  The keyboard arms (key-down, flags
changed), cursor-left and touchpad-pressure arms attach the native event's
window id without consulting the registry. -/
theorem C4_registry_check_scope (windows : WindowRegistry) (mods : Modifiers) (e : NSEvent) :
    (e.eventType = NSEventType.scrollWheel → findWindow windows e.windowId = none →
        ns_event_to_event windows mods (some e)
          = { returned := none, queued := [], modifiers := mods })
    ∧ (e.eventType = NSEventType.scrollWheel →
        ∀ (wid : Nat) (we : WindowEvent),
          (ns_event_to_event windows mods (some e)).returned = some (Event.WindowEvent wid we) →
          (findWindow windows wid).isSome = true)
    ∧ ((e.eventType = NSEventType.mouseMoved ∨ e.eventType = NSEventType.leftMouseDragged
          ∨ e.eventType = NSEventType.otherMouseDragged
          ∨ e.eventType = NSEventType.rightMouseDragged
          ∨ e.eventType = NSEventType.mouseEntered) →
        findWindow windows e.windowId = none → findKeyWindow windows = none →
        ns_event_to_event windows mods (some e)
          = { returned := none, queued := [], modifiers := mods }) := by
  refine ⟨?_, ?_, ?_⟩
  · intro h hf
    simp [ns_event_to_event, h, scroll_wheel_arm, hf]
  · intro h wid we hret
    have harm : ns_event_to_event windows mods (some e) = scroll_wheel_arm windows mods e := by
      simp [ns_event_to_event, h]
    rw [harm] at hret
    unfold scroll_wheel_arm at hret
    cases hf : findWindow windows e.windowId with
    | none => rw [hf] at hret; simp at hret
    | some w =>
      rw [hf] at hret
      simp only [into_event] at hret
      have : e.windowId = wid := by
        have := Option.some.inj hret
        exact (Event.WindowEvent.inj this).1
      rw [← this, hf]
      rfl
  · intro h hf hk
    have hok : windowOrKeyWindow windows e.windowId = none := by
      simp [windowOrKeyWindow, hf, hk]
    rcases h with h | h | h | h | h <;>
      simp [ns_event_to_event, h, mouse_moved_arm, mouse_entered_arm, hok]

/-- C4 (witness): concrete instances — a scroll wheel with an empty registry
is suppressed, a scroll wheel on registered window 5 returns an event whose
id resolves, and a mouse move with no registered or key window is dropped. -/
theorem C4_registry_check_scope_witness :
    ns_event_to_event [] Modifiers.new (some scrollWheelEvent5)
      = { returned := none, queued := [], modifiers := Modifiers.new }
    ∧ (findWindow [some { id := 5, isKeyWindow := false }] 5).isSome = true
    ∧ ns_event_to_event [] Modifiers.new (some mouseMovedEvent5)
      = { returned := none, queued := [], modifiers := Modifiers.new } := by
  refine ⟨?_, ?_, ?_⟩
  · exact (C4_registry_check_scope [] Modifiers.new scrollWheelEvent5).1 rfl (by decide)
  · exact (C4_registry_check_scope [some { id := 5, isKeyWindow := false }]
      Modifiers.new scrollWheelEvent5).2.1 rfl 5
      (WindowEvent.MouseWheel DEVICE_ID (MouseScrollDelta.LineDelta 0 0) TouchPhase.Moved
        { shift := false, ctrl := false, alt := false, logo := false }) (by decide)
  · exact (C4_registry_check_scope [] Modifiers.new mouseMovedEvent5).2.2
      (Or.inl rfl) (by decide) (by decide)

/-- C5 (counterexample): a mouse move with non-zero deltas on both axes,
translated while the single registered window is the key window, produces
three canonical events — `Motion` axis 0 (returned directly), then `Motion`
axis 1 and the aggregate `MouseMotion` (queued) — not four, and no
`CursorMoved` at all. -/
theorem C5_counterexample :
    (ns_event_to_event [some { id := 5, isKeyWindow := true }] Modifiers.new
        (some mouseMovedEvent5)).returned
      = some (Event.DeviceEvent DEVICE_ID (DeviceEvent.Motion 0 3))
    ∧ (ns_event_to_event [some { id := 5, isKeyWindow := true }] Modifiers.new
        (some mouseMovedEvent5)).queued
      = [Event.DeviceEvent DEVICE_ID (DeviceEvent.Motion 1 4),
         Event.DeviceEvent DEVICE_ID (DeviceEvent.MouseMotion (3, 4))]
    ∧ ((ns_event_to_event [some { id := 5, isKeyWindow := true }] Modifiers.new
          (some mouseMovedEvent5)).returned.toList
        ++ (ns_event_to_event [some { id := 5, isKeyWindow := true }] Modifiers.new
          (some mouseMovedEvent5)).queued).length = 3 := by
  decide

/-- C5 (amended): a native mouse move with non-zero deltas on both axes,
translated while some window resolves (registered or key), produces exactly
three canonical events in order — `Motion` axis 0, `Motion` axis 1, aggregate
`MouseMotion` — the first returned directly from translation and the other
two queued; the window-relative `CursorMoved` is not produced by this
translation arm. -/
theorem C5_mouse_move_fanout (windows : WindowRegistry) (mods : Modifiers) (e : NSEvent)
    (w : Window2) (h : e.eventType = NSEventType.mouseMoved)
    (hw : windowOrKeyWindow windows e.windowId = some w)
    (hx : e.deltaX ≠ 0) (hy : e.deltaY ≠ 0) :
    (ns_event_to_event windows mods (some e)).returned
      = some (Event.DeviceEvent DEVICE_ID (DeviceEvent.Motion 0 e.deltaX))
    ∧ (ns_event_to_event windows mods (some e)).queued
      = [Event.DeviceEvent DEVICE_ID (DeviceEvent.Motion 1 e.deltaY),
         Event.DeviceEvent DEVICE_ID (DeviceEvent.MouseMotion (e.deltaX, e.deltaY))] := by
  have harm : ns_event_to_event windows mods (some e) = mouse_moved_arm windows mods e := by
    simp [ns_event_to_event, h]
  rw [harm]
  unfold mouse_moved_arm
  rw [hw]
  simp [hx, hy]

/-- C5 (witness): the three-event fan-out at the concrete mouse move with
deltas 3 and 4 on the registered key window 5. -/
theorem C5_mouse_move_fanout_witness :
    (ns_event_to_event [some { id := 5, isKeyWindow := true }] Modifiers.new
        (some mouseMovedEvent5)).returned
      = some (Event.DeviceEvent DEVICE_ID (DeviceEvent.Motion 0 3))
    ∧ (ns_event_to_event [some { id := 5, isKeyWindow := true }] Modifiers.new
        (some mouseMovedEvent5)).queued
      = [Event.DeviceEvent DEVICE_ID (DeviceEvent.Motion 1 4),
         Event.DeviceEvent DEVICE_ID (DeviceEvent.MouseMotion (3, 4))] :=
  C5_mouse_move_fanout [some { id := 5, isKeyWindow := true }] Modifiers.new
    mouseMovedEvent5 { id := 5, isKeyWindow := true } rfl (by decide) (by decide) (by decide)

/-- C6: the macOS `Proxy::wakeup` (and the `EventsLoopProxy` wrapper that
forwards to it) returns `Ok(())` unconditionally.  The field-less `Proxy`
holds no reference to its `EventsLoop`, so the documented `EventsLoopClosed`
failure for a destroyed loop is never produced: wakeup after the loop is
gone still reports success. -/
theorem C6_wakeup_never_fails (p : Proxy) (q : EventsLoopProxy) :
    Proxy.wakeup p = Except.ok () ∧ EventsLoopProxy.wakeup q = Except.ok () :=
  ⟨rfl, rfl⟩

/-- C7: draining delivers exactly the pending queue in FIFO order and leaves
it empty, and in both blocking and poll mode every native fetch of a session
happens with an empty pending queue (each `fetchNative` trace entry records
queue length 0): the queue is fully drained before the loop requests the
next native event. -/
theorem C7_fifo_full_drain {σ : Type} (cb : σ → Event → σ × ControlFlow)
    (cbp : σ → Event → σ) (s0 : σ) (windows : WindowRegistry) (mods : Modifiers)
    (q : List Event) (natives : List (Option NSEvent)) (nativesP : List NSEvent)
    (st : LoopState σ) :
    (call_user_callback_with_pending_events cb st).ops = st.ops ++ st.pending.map Op.deliver
    ∧ (call_user_callback_with_pending_events cb st).pending = []
    ∧ allFetchZero (run_forever_loop cb windows natives (initState q mods s0)).ops = true
    ∧ allFetchZero (poll_events_loop cbp windows nativesP (initState q mods s0)).ops = true := by
  refine ⟨drain_ops cb st, drain_pending cb st, ?_, ?_⟩
  · obtain ⟨t, hops, hz⟩ := run_forever_loop_ops cb windows natives (initState q mods s0)
    rw [hops]
    simp [initState, allFetchZero_append, allFetchZero_deliver, allFetchZero_nil, hz]
  · obtain ⟨t, hops, hz⟩ := poll_events_loop_ops cbp windows nativesP (initState q mods s0)
    rw [hops]
    simp [initState, allFetchZero_append, allFetchZero_deliver, allFetchZero_nil, hz]

/-- C8: calling either dispatch entry point off the main thread panics — the
outcome carries no state and no event was delivered, since the check runs
before the callback is even stored — while a main-thread call never takes
the panic path. -/
theorem C8_wrong_thread_panics {σ : Type} (cb : σ → Event → σ × ControlFlow)
    (cbp : σ → Event → σ) (s0 : σ) (windows : WindowRegistry) (mods : Modifiers)
    (q : List Event) (natives : List (Option NSEvent)) (nativesP : List NSEvent) :
    run_forever false cb s0 windows mods q natives = DispatchOutcome.panicked
    ∧ poll_events false cbp s0 windows mods q nativesP = DispatchOutcome.panicked
    ∧ run_forever true cb s0 windows mods q natives ≠ DispatchOutcome.panicked
    ∧ poll_events true cbp s0 windows mods q nativesP ≠ DispatchOutcome.panicked := by
  refine ⟨rfl, rfl, ?_, ?_⟩ <;> simp [run_forever, poll_events]

/-- C9: with three live registered windows and distinct ids, the close
notification for the middle one removes exactly its entry: the registry
afterwards holds exactly the other two, unchanged, and the removed id no
longer resolves. -/
theorem C9_close_removes_window (w1 w2 w3 : Window2)
    (h1 : w1.id ≠ w2.id) (h3 : w3.id ≠ w2.id) :
    find_and_remove_window [some w1, some w2, some w3] w2.id = [some w1, some w3]
    ∧ findWindow (find_and_remove_window [some w1, some w2, some w3] w2.id) w2.id = none := by
  have e1 : (w1.id != w2.id) = true := by simp [bne_iff_ne, h1]
  have e3 : (w3.id != w2.id) = true := by simp [bne_iff_ne, h3]
  have hrem : find_and_remove_window [some w1, some w2, some w3] w2.id
      = [some w1, some w3] := by
    simp [find_and_remove_window, List.filter, e1, e3]
  refine ⟨hrem, ?_⟩
  rw [hrem]
  have f1 : (w2.id == w1.id) = false := by simpa using Ne.symm h1
  have f3 : (w2.id == w3.id) = false := by simpa using Ne.symm h3
  simp [findWindow, List.filterMap, List.find?, f1, f3]

/-- C9 (witness): the removal at three concrete windows with ids 1, 2, 3. -/
theorem C9_close_removes_window_witness :
    find_and_remove_window [some { id := 1, isKeyWindow := false },
        some { id := 2, isKeyWindow := false }, some { id := 3, isKeyWindow := true }] 2
      = [some { id := 1, isKeyWindow := false }, some { id := 3, isKeyWindow := true }]
    ∧ findWindow (find_and_remove_window [some { id := 1, isKeyWindow := false },
        some { id := 2, isKeyWindow := false }, some { id := 3, isKeyWindow := true }] 2) 2
      = none :=
  C9_close_removes_window { id := 1, isKeyWindow := false } { id := 2, isKeyWindow := false }
    { id := 3, isKeyWindow := true } (by decide) (by decide)

/-- C10 (counterexample): when the platform reports a primary monitor whose
handle construction fails (`get_output_info` returns nothing) while a
non-primary monitor is constructed, `has_primary` is already set, so the
fallback does not run: one monitor is enumerated, yet no handle carries the
primary flag and `primary_monitor` fails (the `.expect` panic, modelled as
`none`). -/
theorem C10_counterexample :
    query_monitor_list [{ reportedPrimary := true, outputInfoOk := false },
        { reportedPrimary := false, outputInfoOk := true }]
      = [{ id := 1, primary := false }]
    ∧ primary_monitor (query_monitor_list [{ reportedPrimary := true, outputInfoOk := false },
        { reportedPrimary := false, outputInfoOk := true }]) = none := by
  decide

/-- C10 (amended): if the platform reports no monitor as primary,
`query_monitor_list` marks the first constructed monitor as primary, so
whenever at least one monitor is enumerated `primary_monitor` returns a
handle with the primary flag set.  (When a reported-primary monitor fails
handle construction, the fallback is skipped and `primary_monitor` can still
fail — the counterexample above.) -/
theorem C10_primary_fallback (input : List MonitorRecord)
    (h1 : (input.any fun r => r.reportedPrimary) = false)
    (h2 : query_monitor_list input ≠ []) :
    ∃ m, primary_monitor (query_monitor_list input) = some m ∧ m.primary = true := by
  have hsnd : (query_scan input [] false 0).2 = false := by
    rw [query_scan_snd]
    simp [h1]
  unfold query_monitor_list at h2 ⊢
  rw [hsnd] at h2 ⊢
  simp only [Bool.not_false, if_true] at h2 ⊢
  cases hav : (query_scan input [] false 0).1 with
  | nil => rw [hav] at h2; simp at h2
  | cons first rest =>
    refine ⟨{ first with primary := true }, ?_, rfl⟩
    simp [primary_monitor, List.find?]

/-- C10 (witness): a single constructed, non-reported-primary monitor gets the
primary flag and is found. -/
theorem C10_primary_fallback_witness :
    ∃ m, primary_monitor
        (query_monitor_list [{ reportedPrimary := false, outputInfoOk := true }]) = some m
      ∧ m.primary = true :=
  C10_primary_fallback [{ reportedPrimary := false, outputInfoOk := true }]
    (by decide) (by decide)

end Winit
